import Mathlib

/-!
Verification of the checksum-verified file synchronization module
(`library/juniper_junos_file.py`): an idempotent put/get file transfer
between a controller and a Junos device, deciding from MD5 checksums
whether a transfer is needed, performing it over a scoped SCP session,
and re-verifying the destination checksum afterwards.

The embedding models files as byte lists (`List Nat`, each byte < 256 in
practice), the MD5 accumulator faithfully (padding, 64 rounds, little
endian hex output), exceptions as values carrying their message string,
and the external world (local filesystem reads, the remote checksum RPC,
the SCP copy) as an oracle record consumed in program order.
-/

namespace JunosFile

/-- A raised Python exception, reduced to its message text (the code only
inspects `format(err)` / `err.message` via substring tests). -/
structure PyErr where
  message : String
deriving Repr, DecidableEq

instance {ε α : Type} [DecidableEq ε] [DecidableEq α] :
    DecidableEq (Except ε α) := fun a b =>
  match a, b with
  | .ok x, .ok y =>
      if h : x = y then .isTrue (by rw [h])
      else .isFalse (fun hh => h (by cases hh; rfl))
  | .ok _, .error _ => .isFalse (by intro hh; cases hh)
  | .error _, .ok _ => .isFalse (by intro hh; cases hh)
  | .error x, .error y =>
      if h : x = y then .isTrue (by rw [h])
      else .isFalse (fun hh => h (by cases hh; rfl))

/-! ### MD5 (model of `hashlib.md5`)

Faithful executable MD5 over byte lists: padding, per-round constants and
shifts, 64 rounds on four 32-bit words kept as `Nat` reduced `% 2^32`,
digest rendered as 32 lowercase hex characters. -/

/-- Per-round left-rotation amounts of MD5. -/
def md5S : List Nat :=
  [7, 12, 17, 22, 7, 12, 17, 22, 7, 12, 17, 22, 7, 12, 17, 22,
   5, 9, 14, 20, 5, 9, 14, 20, 5, 9, 14, 20, 5, 9, 14, 20,
   4, 11, 16, 23, 4, 11, 16, 23, 4, 11, 16, 23, 4, 11, 16, 23,
   6, 10, 15, 21, 6, 10, 15, 21, 6, 10, 15, 21, 6, 10, 15, 21]

/-- Per-round additive constants of MD5 (binary integer parts of the sines
of the first 64 positive integers, scaled by 2^32). -/
def md5K : List Nat :=
  [0xd76aa478, 0xe8c7b756, 0x242070db, 0xc1bdceee,
   0xf57c0faf, 0x4787c62a, 0xa8304613, 0xfd469501,
   0x698098d8, 0x8b44f7af, 0xffff5bb1, 0x895cd7be,
   0x6b901122, 0xfd987193, 0xa679438e, 0x49b40821,
   0xf61e2562, 0xc040b340, 0x265e5a51, 0xe9b6c7aa,
   0xd62f105d, 0x02441453, 0xd8a1e681, 0xe7d3fbc8,
   0x21e1cde6, 0xc33707d6, 0xf4d50d87, 0x455a14ed,
   0xa9e3e905, 0xfcefa3f8, 0x676f02d9, 0x8d2a4c8a,
   0xfffa3942, 0x8771f681, 0x6d9d6122, 0xfde5380c,
   0xa4beea44, 0x4bdecfa9, 0xf6bb4b60, 0xbebfbc70,
   0x289b7ec6, 0xeaa127fa, 0xd4ef3085, 0x04881d05,
   0xd9d4d039, 0xe6db99e5, 0x1fa27cf8, 0xc4ac5665,
   0xf4292244, 0x432aff97, 0xab9423a7, 0xfc93a039,
   0x655b59c3, 0x8f0ccc92, 0xffeff47d, 0x85845dd1,
   0x6fa87e4f, 0xfe2ce6e0, 0xa3014314, 0x4e0811a1,
   0xf7537e82, 0xbd3af235, 0x2ad7d2bb, 0xeb86d391]

/-- Bitwise complement on a 32-bit word held as a `Nat`. -/
def wnot (x : Nat) : Nat := 4294967295 - x % 4294967296

/-- Left-rotation of a 32-bit word by `s` places. -/
def rotl (x s : Nat) : Nat :=
  ((x <<< s) + (x >>> (32 - s))) % 4294967296

/-- The `count` least-significant bytes of `n`, little-endian. -/
def leBytes (n : Nat) : Nat → List Nat
  | 0 => []
  | c + 1 => (n % 256) :: leBytes (n / 256) c

/-- Group a byte list into little-endian 32-bit words. -/
def toWordsLE : List Nat → List Nat
  | b0 :: b1 :: b2 :: b3 :: rest =>
      (b0 % 256 + (b1 % 256) * 256 + (b2 % 256) * 65536
        + (b3 % 256) * 16777216) :: toWordsLE rest
  | _ => []

/-- MD5 padding: append `0x80`, zero bytes up to 56 mod 64, then the
original bit length as 8 little-endian bytes. -/
def md5Pad (msg : List Nat) : List Nat :=
  msg ++ [128] ++ List.replicate ((119 - msg.length % 64) % 64) 0
      ++ leBytes (msg.length * 8) 8

/-- One MD5 round `i` (0 ≤ i < 64) over message words `M` and the running
state `(A, B, C, D)`. -/
def md5Round (M : List Nat) (i : Nat) : Nat × Nat × Nat × Nat → Nat × Nat × Nat × Nat
  | (A, B, C, D) =>
    let Fg : Nat × Nat :=
      if i < 16 then ((B &&& C) ||| (wnot B &&& D), i)
      else if i < 32 then ((D &&& B) ||| (wnot D &&& C), (5 * i + 1) % 16)
      else if i < 48 then (B ^^^ C ^^^ D, (3 * i + 5) % 16)
      else (C ^^^ (B ||| wnot D), (7 * i) % 16)
    let Fv := (Fg.1 + A + md5K.getD i 0 + M.getD Fg.2 0) % 4294967296
    (D, (B + rotl Fv (md5S.getD i 0)) % 4294967296, B, C)

/-- Process one 64-byte chunk, mixing the 64 rounds into the state. -/
def md5ProcessChunk (st : Nat × Nat × Nat × Nat) (chunk : List Nat) :
    Nat × Nat × Nat × Nat :=
  let M := toWordsLE chunk
  let r := (List.range 64).foldl (fun acc i => md5Round M i acc) st
  ((st.1 + r.1) % 4294967296, (st.2.1 + r.2.1) % 4294967296,
   (st.2.2.1 + r.2.2.1) % 4294967296, (st.2.2.2 + r.2.2.2) % 4294967296)

/-- Split a (padded) byte list into 64-byte chunks; `fuel` bounds the
number of steps (any `fuel ≥ l.length` is exact, since every step
consumes at least one byte). -/
def chunks64Go : Nat → List Nat → List (List Nat)
  | 0, _ => []
  | fuel + 1, l =>
      if l.length = 0 then []
      else l.take 64 :: chunks64Go fuel (l.drop 64)

/-- Split a (padded) byte list into 64-byte chunks. -/
def chunks64 (l : List Nat) : List (List Nat) :=
  chunks64Go l.length l

/-- The four 32-bit words of the MD5 digest of a byte list. -/
def md5Digest (msg : List Nat) : Nat × Nat × Nat × Nat :=
  (chunks64 (md5Pad msg)).foldl md5ProcessChunk
    (0x67452301, 0xefcdab89, 0x98badcfe, 0x10325476)

/-- The sixteen digest bytes, little-endian per word as MD5 specifies. -/
def digestBytes (st : Nat × Nat × Nat × Nat) : List Nat :=
  leBytes st.1 4 ++ leBytes st.2.1 4 ++ leBytes st.2.2.1 4 ++ leBytes st.2.2.2 4

/-- Lowercase hexadecimal character for a nibble value. -/
def hexChar : Nat → Char
  | 0 => '0' | 1 => '1' | 2 => '2' | 3 => '3'
  | 4 => '4' | 5 => '5' | 6 => '6' | 7 => '7'
  | 8 => '8' | 9 => '9' | 10 => 'a' | 11 => 'b'
  | 12 => 'c' | 13 => 'd' | 14 => 'e' | _ => 'f'

/-- Two lowercase hex characters of one byte, high nibble first. -/
def byteHex (b : Nat) : List Char := [hexChar (b / 16 % 16), hexChar (b % 16)]

/-- Render a digest state as `hexdigest` does: 32 lowercase hex chars. -/
def digestHex (st : Nat × Nat × Nat × Nat) : String :=
  String.mk (((digestBytes st).map byteHex).flatten)

/-- `hashlib.md5(msg).hexdigest()`: the lowercase hex MD5 digest. -/
def md5Hex (msg : List Nat) : String := digestHex (md5Digest msg)

/-! ### `_hashfile` (the streaming checksum helper)

The source reads the file in `blocksize`-byte buffers inside a
`while len(buf) > 0` loop, feeding each buffer to the hash accumulator,
and returns `hasher.hexdigest()`. The accumulator state of `hashlib.md5`
is modelled extensionally as the list of bytes absorbed so far
(`update` appends; `hexdigest` applies `md5Hex`). -/

/-- The read/update loop of `_hashfile` (`while len(buf) > 0`):
`remaining` is the unread tail of the file, `hasher` the bytes absorbed so
far, and `fuel` bounds the number of loop iterations (any
`fuel ≥ remaining.length` is exact, since every iteration that passes the
guard consumes at least one byte). -/
def hashfileGo : Nat → List Nat → List Nat → Nat → List Nat
  | 0, _, hasher, _ => hasher
  | fuel + 1, remaining, hasher, blocksize =>
      if 0 < (remaining.take blocksize).length then
        hashfileGo fuel (remaining.drop blocksize)
          (hasher ++ remaining.take blocksize) blocksize
      else hasher

/-- `_hashfile(afile, hasher, blocksize=65536)`: stream the file through
the accumulator and return the hex digest. -/
def hashfile (afile hasher : List Nat) (blocksize : Nat) : String :=
  md5Hex (hashfileGo afile.length afile hasher blocksize)

/-! ### `local_md5` and `remote_md5`

Both helpers wrap an external operation that may raise. The operation's
outcome is supplied as an `Except PyErr` value: for `local_md5` the bytes
of the opened local file, for `remote_md5` the raw text of the
`get_checksum_information` RPC reply's `checksum` element. On an
exception, each helper turns the direction-appropriate "no such file"
message into the sentinel string `"no_file"` and re-raises anything
else. -/

/-- `"needle in haystack"` of Python, as a Bool on the char lists. -/
def strContains (haystack needle : String) : Bool :=
  decide (needle.data <:+: haystack.data)

/-- Python's `str.strip()`: remove leading and trailing whitespace. -/
def pyStrip (s : String) : String :=
  String.mk (((s.data.dropWhile Char.isWhitespace).reverse.dropWhile
    Char.isWhitespace).reverse)

/-- `local_md5(junos_module, package)`: hash the local file; on an
exception whose text contains "No such file" while `type == "get"`,
return the `"no_file"` sentinel, otherwise re-raise. -/
def local_md5 (ptype : String) (openResult : Except PyErr (List Nat)) :
    Except PyErr String :=
  match openResult with
  | .ok bytes => .ok (hashfile bytes [] 65536)
  | .error err =>
      if strContains err.message "No such file" && (ptype == "get") then
        .ok "no_file"
      else
        .error err

/-- `remote_md5(junos_module, remote_file)`: fetch the remote checksum via
RPC (the reply text is stripped); on an exception whose message contains
"No such file or directory" while `type == "put"`, return the
`"no_file"` sentinel, otherwise re-raise. -/
def remote_md5 (ptype : String) (rpcResult : Except PyErr String) :
    Except PyErr String :=
  match rpcResult with
  | .ok text => .ok (pyStrip text)
  | .error err =>
      if strContains err.message "No such file or directory" && (ptype == "put") then
        .ok "no_file"
      else
        .error err

/-! ### `main` (the sync decision core)

The external world consumed by one invocation, in program order: the
result of opening/reading the local file (once before a put, once before
and once after the copy in a get), the checksum RPC replies (once before
a get, once before and once after the copy in a put), and the SCP copy
itself. `with SCP(...) as scp1:` acquires the session, runs the copy, and
releases the session on both the normal and the raising path; the trace
of observable events records this. -/

structure Env where
  /-- Result of the first `open(local_file, 'rb')` + read. -/
  localOpen1 : Except PyErr (List Nat)
  /-- Result of the second local open/read (get direction, post-copy). -/
  localOpen2 : Except PyErr (List Nat)
  /-- First `get_checksum_information` reply text. -/
  rpc1 : Except PyErr String
  /-- Second `get_checksum_information` reply text (put, post-copy). -/
  rpc2 : Except PyErr String
  /-- Outcome of `scp1.put(...)` / `scp1.get(...)`. -/
  scpResult : Except PyErr Unit
deriving Repr

/-- Observable events of one invocation. -/
inductive Event
  | localHash   -- a call to local_md5
  | remoteHash  -- a call to remote_md5
  | scpOpen     -- SCP session acquired (with-statement entry)
  | scpPut      -- scp1.put attempted
  | scpGet      -- scp1.get attempted
  | scpClose    -- SCP session released (with-statement exit)
deriving Repr, DecidableEq

/-- Terminal result of one invocation: `exit_json` with the results dict,
`fail_json` with a failure message, or an uncaught exception. -/
inductive Outcome
  | exited (msg : String) (changed : Bool) (failed : Bool)
  | failedJson (msg : String)
  | raised (err : PyErr)
deriving Repr, DecidableEq

/-- The failure status string built by both directions:
`"Transfer failed (different MD5 between local and remote) {} | {}"`
formatted with the local and the remote checksum. -/
def transferFailMsg (localSum remoteSum : String) : String :=
  "Transfer failed (different MD5 between local and remote) "
    ++ localSum ++ " | " ++ remoteSum

/-- The body of `main()` after argument parsing: the checksum-compare /
transfer / re-verify state machine, returning the terminal outcome and
the event trace. -/
def mainRun (ptype : String) (env : Env) : Outcome × List Event :=
  if ptype == "put" then
    match local_md5 ptype env.localOpen1 with
    | .error err => (.raised err, [.localHash])
    | .ok localChecksum =>
      match remote_md5 ptype env.rpc1 with
      | .error err => (.raised err, [.localHash, .remoteHash])
      | .ok remoteChecksum =>
        if (remoteChecksum == "no_file") || (remoteChecksum != localChecksum) then
          match env.scpResult with
          | .error err =>
              (.raised err, [.localHash, .remoteHash, .scpOpen, .scpPut, .scpClose])
          | .ok _ =>
            match remote_md5 ptype env.rpc2 with
            | .error err =>
                (.raised err,
                 [.localHash, .remoteHash, .scpOpen, .scpPut, .scpClose, .remoteHash])
            | .ok remoteChecksum2 =>
              if remoteChecksum2 != localChecksum then
                (.failedJson (transferFailMsg localChecksum remoteChecksum2),
                 [.localHash, .remoteHash, .scpOpen, .scpPut, .scpClose, .remoteHash])
              else
                (.exited "File pushed OK" true false,
                 [.localHash, .remoteHash, .scpOpen, .scpPut, .scpClose, .remoteHash])
        else
          (.exited "File already present, skipping the scp" false false,
           [.localHash, .remoteHash])
  else if ptype == "get" then
    match remote_md5 ptype env.rpc1 with
    | .error err => (.raised err, [.remoteHash])
    | .ok remoteChecksum =>
      match local_md5 ptype env.localOpen1 with
      | .error err => (.raised err, [.remoteHash, .localHash])
      | .ok localChecksum =>
        if (localChecksum == "no_file") || (remoteChecksum != localChecksum) then
          match env.scpResult with
          | .error err =>
              (.raised err, [.remoteHash, .localHash, .scpOpen, .scpGet, .scpClose])
          | .ok _ =>
            match local_md5 ptype env.localOpen2 with
            | .error err =>
                (.raised err,
                 [.remoteHash, .localHash, .scpOpen, .scpGet, .scpClose, .localHash])
            | .ok localChecksum2 =>
              if remoteChecksum != localChecksum2 then
                (.failedJson (transferFailMsg localChecksum2 remoteChecksum),
                 [.remoteHash, .localHash, .scpOpen, .scpGet, .scpClose, .localHash])
              else
                (.exited "File retrieved OK" true false,
                 [.remoteHash, .localHash, .scpOpen, .scpGet, .scpClose, .localHash])
        else
          (.exited "File already present, skipping the scp" false false,
           [.remoteHash, .localHash])
  else
    -- `status` is never assigned; `results['msg'] = status` raises NameError.
    (.raised ⟨"name 'status' is not defined"⟩, [])

/-- A transfer was attempted during the run. -/
def transferAttempted (trace : List Event) : Prop :=
  Event.scpPut ∈ trace ∨ Event.scpGet ∈ trace

instance (trace : List Event) : Decidable (transferAttempted trace) := by
  unfold transferAttempted
  infer_instance

/-! ### Supporting lemmas -/

/-- The read loop absorbs exactly the remaining bytes, provided the fuel
covers the list (every guarded iteration consumes at least one byte). -/
theorem hashfileGo_spec (bs : Nat) (hbs : 0 < bs) :
    ∀ (fuel : Nat) (remaining hasher : List Nat), remaining.length ≤ fuel →
      hashfileGo fuel remaining hasher bs = hasher ++ remaining := by
  intro fuel
  induction fuel with
  | zero =>
      intro remaining hasher h
      have hr : remaining = [] := List.eq_nil_of_length_eq_zero (Nat.le_zero.mp h)
      subst hr
      simp [hashfileGo]
  | succ n ih =>
      intro remaining hasher h
      by_cases hc : 0 < (remaining.take bs).length
      · rw [hashfileGo, if_pos hc,
          ih (remaining.drop bs) (hasher ++ remaining.take bs)
            (by simp only [List.length_drop]; omega),
          List.append_assoc, List.take_append_drop]
      · have hr : remaining = [] := by
          simp only [List.length_take, Nat.not_lt, Nat.le_zero] at hc
          exact List.eq_nil_of_length_eq_zero (by omega)
        subst hr
        simp [hashfileGo]

/-- Streaming a file through the accumulator in blocks of any positive
size hashes exactly `hasher ++ afile`. -/
theorem hashfile_spec (afile hasher : List Nat) (bs : Nat) (hbs : 0 < bs) :
    hashfile afile hasher bs = md5Hex (hasher ++ afile) := by
  rw [hashfile, hashfileGo_spec bs hbs afile.length afile hasher (Nat.le_refl _)]

/-- The rendered digest always has 32 characters. -/
theorem digestHex_length (st : Nat × Nat × Nat × Nat) :
    (digestHex st).length = 32 := rfl

/-- An MD5 hex digest is never the `"no_file"` sentinel. -/
theorem md5Hex_ne_no_file (msg : List Nat) : md5Hex msg ≠ "no_file" := by
  intro h
  have h32 : (md5Hex msg).length = 32 := digestHex_length _
  rw [h] at h32
  exact absurd h32 (by decide)

/-- Every character `hexChar` produces is a lowercase hex character. -/
theorem hexChar_mem (n : Nat) : hexChar n ∈ "0123456789abcdef".data := by
  unfold hexChar
  split <;> decide

/-- Both characters of `byteHex` are lowercase hex characters. -/
theorem mem_byteHex {c : Char} {b : Nat} (h : c ∈ byteHex b) :
    c ∈ "0123456789abcdef".data := by
  simp only [byteHex, List.mem_cons, List.mem_singleton, List.not_mem_nil,
    or_false] at h
  rcases h with h | h <;> (subst h; exact hexChar_mem _)

/-- Every character of a rendered digest is a lowercase hex character. -/
theorem digestHex_chars (st : Nat × Nat × Nat × Nat) :
    ∀ c ∈ (digestHex st).data, c ∈ "0123456789abcdef".data := by
  intro c hc
  have hdata : (digestHex st).data = ((digestBytes st).map byteHex).flatten := rfl
  rw [hdata, List.mem_flatten] at hc
  obtain ⟨l, hl, hcl⟩ := hc
  rw [List.mem_map] at hl
  obtain ⟨b, _, rfl⟩ := hl
  exact mem_byteHex hcl

/-! #### Unfolding lemmas for `mainRun` -/

/-- The full event trace of a put that reaches the re-verification. -/
def putTrace : List Event :=
  [.localHash, .remoteHash, .scpOpen, .scpPut, .scpClose, .remoteHash]

/-- The full event trace of a get that reaches the re-verification. -/
def getTrace : List Event :=
  [.remoteHash, .localHash, .scpOpen, .scpGet, .scpClose, .localHash]

theorem mainRun_put_skip (env : Env) (lc rc : String)
    (hl : local_md5 "put" env.localOpen1 = .ok lc)
    (hr : remote_md5 "put" env.rpc1 = .ok rc)
    (hcond : ¬(rc = "no_file" ∨ rc ≠ lc)) :
    mainRun "put" env =
      (.exited "File already present, skipping the scp" false false,
       [.localHash, .remoteHash]) := by
  push_neg at hcond
  obtain ⟨h1, rfl⟩ := hcond
  simp [mainRun, hl, hr, h1]

theorem mainRun_put_scp_raise (env : Env) (lc rc : String) (e : PyErr)
    (hl : local_md5 "put" env.localOpen1 = .ok lc)
    (hr : remote_md5 "put" env.rpc1 = .ok rc)
    (hcond : rc = "no_file" ∨ rc ≠ lc)
    (hscp : env.scpResult = .error e) :
    mainRun "put" env =
      (.raised e, [.localHash, .remoteHash, .scpOpen, .scpPut, .scpClose]) := by
  have hb : ((rc == "no_file") || (rc != lc)) = true := by
    rcases hcond with h | h <;> simp [h]
  simp [mainRun, hl, hr, hb, hscp]

theorem mainRun_put_rpc2_raise (env : Env) (lc rc : String) (e : PyErr)
    (hl : local_md5 "put" env.localOpen1 = .ok lc)
    (hr : remote_md5 "put" env.rpc1 = .ok rc)
    (hcond : rc = "no_file" ∨ rc ≠ lc)
    (hscp : env.scpResult = .ok ())
    (hr2 : remote_md5 "put" env.rpc2 = .error e) :
    mainRun "put" env = (.raised e, putTrace) := by
  have hb : ((rc == "no_file") || (rc != lc)) = true := by
    rcases hcond with h | h <;> simp [h]
  simp [mainRun, hl, hr, hb, hscp, hr2, putTrace]

theorem mainRun_put_verify (env : Env) (lc rc rc2 : String)
    (hl : local_md5 "put" env.localOpen1 = .ok lc)
    (hr : remote_md5 "put" env.rpc1 = .ok rc)
    (hcond : rc = "no_file" ∨ rc ≠ lc)
    (hscp : env.scpResult = .ok ())
    (hr2 : remote_md5 "put" env.rpc2 = .ok rc2) :
    mainRun "put" env =
      (if rc2 = lc then .exited "File pushed OK" true false
       else .failedJson (transferFailMsg lc rc2), putTrace) := by
  have hb : ((rc == "no_file") || (rc != lc)) = true := by
    rcases hcond with h | h <;> simp [h]
  by_cases h2 : rc2 = lc
  · simp [mainRun, hl, hr, hb, hscp, hr2, h2, putTrace]
  · simp [mainRun, hl, hr, hb, hscp, hr2, h2, putTrace]

theorem mainRun_get_skip (env : Env) (lc rc : String)
    (hr : remote_md5 "get" env.rpc1 = .ok rc)
    (hl : local_md5 "get" env.localOpen1 = .ok lc)
    (hcond : ¬(lc = "no_file" ∨ rc ≠ lc)) :
    mainRun "get" env =
      (.exited "File already present, skipping the scp" false false,
       [.remoteHash, .localHash]) := by
  push_neg at hcond
  obtain ⟨h1, h2⟩ := hcond
  subst h2
  simp [mainRun, hl, hr, h1]

theorem mainRun_get_scp_raise (env : Env) (lc rc : String) (e : PyErr)
    (hr : remote_md5 "get" env.rpc1 = .ok rc)
    (hl : local_md5 "get" env.localOpen1 = .ok lc)
    (hcond : lc = "no_file" ∨ rc ≠ lc)
    (hscp : env.scpResult = .error e) :
    mainRun "get" env =
      (.raised e, [.remoteHash, .localHash, .scpOpen, .scpGet, .scpClose]) := by
  have hb : ((lc == "no_file") || (rc != lc)) = true := by
    rcases hcond with h | h <;> simp [h]
  simp [mainRun, hl, hr, hb, hscp]

theorem mainRun_get_local2_raise (env : Env) (lc rc : String) (e : PyErr)
    (hr : remote_md5 "get" env.rpc1 = .ok rc)
    (hl : local_md5 "get" env.localOpen1 = .ok lc)
    (hcond : lc = "no_file" ∨ rc ≠ lc)
    (hscp : env.scpResult = .ok ())
    (hl2 : local_md5 "get" env.localOpen2 = .error e) :
    mainRun "get" env = (.raised e, getTrace) := by
  have hb : ((lc == "no_file") || (rc != lc)) = true := by
    rcases hcond with h | h <;> simp [h]
  simp [mainRun, hl, hr, hb, hscp, hl2, getTrace]

theorem mainRun_get_verify (env : Env) (lc rc lc2 : String)
    (hr : remote_md5 "get" env.rpc1 = .ok rc)
    (hl : local_md5 "get" env.localOpen1 = .ok lc)
    (hcond : lc = "no_file" ∨ rc ≠ lc)
    (hscp : env.scpResult = .ok ())
    (hl2 : local_md5 "get" env.localOpen2 = .ok lc2) :
    mainRun "get" env =
      (if rc = lc2 then .exited "File retrieved OK" true false
       else .failedJson (transferFailMsg lc2 rc), getTrace) := by
  have hb : ((lc == "no_file") || (rc != lc)) = true := by
    rcases hcond with h | h <;> simp [h]
  by_cases h2 : rc = lc2
  · subst h2
    simp [mainRun, hl, hr, hb, hscp, hl2, getTrace]
  · simp [mainRun, hl, hr, hb, hscp, hl2, h2, getTrace]

/-- Whenever the put decision is positive, the copy is attempted, whatever
the SCP session and the re-verification then do. -/
theorem put_transfer_attempted (env : Env) (lc rc : String)
    (hl : local_md5 "put" env.localOpen1 = .ok lc)
    (hr : remote_md5 "put" env.rpc1 = .ok rc)
    (hcond : rc = "no_file" ∨ rc ≠ lc) :
    transferAttempted (mainRun "put" env).2 := by
  cases hscp : env.scpResult with
  | error e =>
      rw [mainRun_put_scp_raise env lc rc e hl hr hcond hscp]
      simp [transferAttempted]
  | ok u =>
      cases u
      cases hr2 : remote_md5 "put" env.rpc2 with
      | error e =>
          rw [mainRun_put_rpc2_raise env lc rc e hl hr hcond hscp hr2]
          simp [transferAttempted, putTrace]
      | ok rc2 =>
          rw [mainRun_put_verify env lc rc rc2 hl hr hcond hscp hr2]
          simp [transferAttempted, putTrace]

/-- Whenever the get decision is positive, the copy is attempted, whatever
the SCP session and the re-verification then do. -/
theorem get_transfer_attempted (env : Env) (lc rc : String)
    (hr : remote_md5 "get" env.rpc1 = .ok rc)
    (hl : local_md5 "get" env.localOpen1 = .ok lc)
    (hcond : lc = "no_file" ∨ rc ≠ lc) :
    transferAttempted (mainRun "get" env).2 := by
  cases hscp : env.scpResult with
  | error e =>
      rw [mainRun_get_scp_raise env lc rc e hr hl hcond hscp]
      simp [transferAttempted]
  | ok u =>
      cases u
      cases hl2 : local_md5 "get" env.localOpen2 with
      | error e =>
          rw [mainRun_get_local2_raise env lc rc e hr hl hcond hscp hl2]
          simp [transferAttempted, getTrace]
      | ok lc2 =>
          rw [mainRun_get_verify env lc rc lc2 hr hl hcond hscp hl2]
          simp [transferAttempted, getTrace]

/-- `local_md5` in direction put only ever succeeds with a genuine digest. -/
theorem local_md5_put_digest (r : Except PyErr (List Nat)) (lc : String)
    (h : local_md5 "put" r = .ok lc) : lc ≠ "no_file" := by
  cases r with
  | ok bytes =>
      simp only [local_md5] at h
      cases h
      rw [hashfile_spec bytes [] 65536 (by omega), List.nil_append]
      exact md5Hex_ne_no_file bytes
  | error e => simp [local_md5] at h

/-- A string decomposed around `n` contains `n` as a Python substring. -/
theorem strContains_of_decomp (h n pre post : String)
    (hdec : h = pre ++ n ++ post) : strContains h n = true := by
  subst hdec
  simp only [strContains, decide_eq_true_eq]
  exact ⟨pre.data, post.data, by simp⟩

/-- The failure status embeds the local checksum. -/
theorem transferFailMsg_contains_local (a b : String) :
    strContains (transferFailMsg a b) a = true := by
  apply strContains_of_decomp _ _
    "Transfer failed (different MD5 between local and remote) " (" | " ++ b)
  simp [transferFailMsg, String.append_assoc]

/-- The failure status embeds the remote checksum. -/
theorem transferFailMsg_contains_remote (a b : String) :
    strContains (transferFailMsg a b) b = true := by
  apply strContains_of_decomp _ _
    ("Transfer failed (different MD5 between local and remote) " ++ a ++ " | ") ""
  simp [transferFailMsg, String.append_assoc]

/-! ### The claims -/

/-- C1: for every direction (put or get) and every pair of obtained
checksums, a transfer is attempted iff the destination-side checksum is
the `"no_file"` sentinel or differs from the source-side checksum; when
the two are equal and the destination is present, no transfer occurs.
(Destination side: remote for put, local for get.) -/
theorem C1_transfer_iff_dest_absent_or_differs (ptype : String) (env : Env)
    (lc rc : String)
    (hty : ptype = "put" ∨ ptype = "get")
    (hl : local_md5 ptype env.localOpen1 = .ok lc)
    (hr : remote_md5 ptype env.rpc1 = .ok rc) :
    transferAttempted (mainRun ptype env).2 ↔
      ((if ptype = "put" then rc else lc) = "no_file" ∨
        (if ptype = "put" then rc else lc) ≠ (if ptype = "put" then lc else rc)) := by
  rcases hty with rfl | rfl
  · simp only [if_pos rfl]
    by_cases hc : rc = "no_file" ∨ rc ≠ lc
    · exact iff_of_true (put_transfer_attempted env lc rc hl hr hc) hc
    · rw [mainRun_put_skip env lc rc hl hr hc]
      exact iff_of_false (by simp [transferAttempted]) hc
  · simp only [if_neg (by decide : ¬("get" : String) = "put")]
    by_cases hc : lc = "no_file" ∨ lc ≠ rc
    · have hc' : lc = "no_file" ∨ rc ≠ lc := by
        rcases hc with h | h
        · exact Or.inl h
        · exact Or.inr (fun hh => h hh.symm)
      exact iff_of_true (get_transfer_attempted env lc rc hr hl hc') hc
    · push_neg at hc
      rw [mainRun_get_skip env lc rc hr hl (by push_neg; exact ⟨hc.1, hc.2.symm⟩)]
      refine iff_of_false (by simp [transferAttempted]) ?_
      push_neg
      exact hc

/-- Witness for C1: with direction get, a missing local file (destination
absent) and remote digest `"abc"`, a transfer is attempted. -/
theorem C1_witness : transferAttempted (mainRun "get"
    { localOpen1 := .error ⟨"IOError: No such file: /tmp/f"⟩,
      localOpen2 := .error ⟨"boom"⟩,
      rpc1 := .ok "abc", rpc2 := .ok "", scpResult := .ok () }).2 :=
  (C1_transfer_iff_dest_absent_or_differs "get"
    { localOpen1 := .error ⟨"IOError: No such file: /tmp/f"⟩,
      localOpen2 := .error ⟨"boom"⟩,
      rpc1 := .ok "abc", rpc2 := .ok "", scpResult := .ok () }
    "no_file" "abc" (Or.inr rfl) (by decide) (by decide)).mpr (by decide)

/-- C2: if a transfer's freshly recomputed destination checksum differs
from the source checksum (either direction), the run ends in `fail_json`
with a message embedding both checksum values, and `changed` is never
reported true. -/
theorem C2_post_transfer_mismatch_fatal (env : Env) :
    (∀ lc rc rc2, local_md5 "put" env.localOpen1 = .ok lc →
      remote_md5 "put" env.rpc1 = .ok rc → (rc = "no_file" ∨ rc ≠ lc) →
      env.scpResult = .ok () → remote_md5 "put" env.rpc2 = .ok rc2 →
      rc2 ≠ lc →
      (mainRun "put" env).1 = .failedJson (transferFailMsg lc rc2) ∧
      strContains (transferFailMsg lc rc2) lc = true ∧
      strContains (transferFailMsg lc rc2) rc2 = true ∧
      ∀ m f, (mainRun "put" env).1 ≠ .exited m true f) ∧
    (∀ rc lc lc2, remote_md5 "get" env.rpc1 = .ok rc →
      local_md5 "get" env.localOpen1 = .ok lc → (lc = "no_file" ∨ rc ≠ lc) →
      env.scpResult = .ok () → local_md5 "get" env.localOpen2 = .ok lc2 →
      rc ≠ lc2 →
      (mainRun "get" env).1 = .failedJson (transferFailMsg lc2 rc) ∧
      strContains (transferFailMsg lc2 rc) lc2 = true ∧
      strContains (transferFailMsg lc2 rc) rc = true ∧
      ∀ m f, (mainRun "get" env).1 ≠ .exited m true f) := by
  constructor
  · intro lc rc rc2 hl hr hcond hscp hr2 hne
    have hrun := mainRun_put_verify env lc rc rc2 hl hr hcond hscp hr2
    rw [hrun, if_neg hne]
    exact ⟨rfl, transferFailMsg_contains_local lc rc2,
      transferFailMsg_contains_remote lc rc2, by intro m f h; cases h⟩
  · intro rc lc lc2 hr hl hcond hscp hl2 hne
    have hrun := mainRun_get_verify env lc rc lc2 hr hl hcond hscp hl2
    rw [hrun, if_neg hne]
    exact ⟨rfl, transferFailMsg_contains_local lc2 rc,
      transferFailMsg_contains_remote lc2 rc, by intro m f h; cases h⟩

/-- Witness for C2: a put of the empty file whose re-verified remote
checksum comes back `"deadbeef"` fails fatally with both digests in the
message. -/
theorem C2_witness :
    (mainRun "put"
      { localOpen1 := .ok [], localOpen2 := .error ⟨"x"⟩,
        rpc1 := .error ⟨"RpcError: No such file or directory"⟩,
        rpc2 := .ok "deadbeef", scpResult := .ok () }).1 =
      .failedJson
        (transferFailMsg "d41d8cd98f00b204e9800998ecf8427e" "deadbeef") :=
  ((C2_post_transfer_mismatch_fatal
    { localOpen1 := .ok [], localOpen2 := .error ⟨"x"⟩,
      rpc1 := .error ⟨"RpcError: No such file or directory"⟩,
      rpc2 := .ok "deadbeef", scpResult := .ok () }).1
    "d41d8cd98f00b204e9800998ecf8427e" "no_file" "deadbeef"
    (by decide) (by decide) (Or.inl rfl) rfl (by decide) (by decide)).1

/-- C3: a missing file yields the `"no_file"` sentinel only in the
direction-appropriate destination case (local missing with get, remote
missing with put); local missing with put, remote missing with get, and
any non-absence error all re-raise. -/
theorem C3_absent_sentinel_only_destination (e : PyErr) :
    (strContains e.message "No such file" = true →
      local_md5 "get" (.error e) = .ok "no_file") ∧
    local_md5 "put" (.error e) = .error e ∧
    (strContains e.message "No such file" = false →
      local_md5 "get" (.error e) = .error e) ∧
    (strContains e.message "No such file or directory" = true →
      remote_md5 "put" (.error e) = .ok "no_file") ∧
    remote_md5 "get" (.error e) = .error e ∧
    (strContains e.message "No such file or directory" = false →
      remote_md5 "put" (.error e) = .error e) := by
  refine ⟨fun h => ?_, ?_, fun h => ?_, fun h => ?_, ?_, fun h => ?_⟩
  · simp [local_md5, h]
  · simp [local_md5]
  · simp [local_md5, h]
  · simp [remote_md5, h]
  · simp [remote_md5]
  · simp [remote_md5, h]

/-- Witness for C3: a genuine "No such file" error is the sentinel for a
get's local side but propagates for a put; a connectivity error always
propagates. -/
theorem C3_witness :
    local_md5 "get" (.error ⟨"IOError: No such file: /tmp/f"⟩) =
        .ok "no_file" ∧
    remote_md5 "put" (.error ⟨"RpcError: No such file or directory"⟩) =
        .ok "no_file" ∧
    remote_md5 "put" (.error ⟨"ConnectError: timeout"⟩) =
        .error ⟨"ConnectError: timeout"⟩ :=
  ⟨(C3_absent_sentinel_only_destination ⟨"IOError: No such file: /tmp/f"⟩).1
      (by decide),
   (C3_absent_sentinel_only_destination
      ⟨"RpcError: No such file or directory"⟩).2.2.2.1 (by decide),
   (C3_absent_sentinel_only_destination ⟨"ConnectError: timeout"⟩).2.2.2.2.2
      (by decide)⟩

/-- C4: put with local digest `d1` and remote absent: the transfer is
attempted, the remote checksum is recomputed afterwards, and when that
fresh checksum equals `d1` the run exits with `changed=true` and
msg="File pushed OK". -/
theorem C4_put_first_time (env : Env) (bytes : List Nat) (d1 : String)
    (hlocal : env.localOpen1 = .ok bytes)
    (hd1 : d1 = hashfile bytes [] 65536)
    (hremote : remote_md5 "put" env.rpc1 = .ok "no_file")
    (hscp : env.scpResult = .ok ())
    (hr2 : remote_md5 "put" env.rpc2 = .ok d1) :
    mainRun "put" env = (.exited "File pushed OK" true false, putTrace) ∧
    transferAttempted (mainRun "put" env).2 := by
  have hl : local_md5 "put" env.localOpen1 = .ok d1 := by
    rw [hlocal, local_md5, hd1]
  have hrun := mainRun_put_verify env d1 "no_file" d1 hl hremote
    (Or.inl rfl) hscp hr2
  rw [if_pos rfl] at hrun
  exact ⟨hrun, put_transfer_attempted env d1 "no_file" hl hremote (Or.inl rfl)⟩

/-- Witness for C4 at the empty local file. -/
theorem C4_witness :
    mainRun "put"
      { localOpen1 := .ok [], localOpen2 := .error ⟨"x"⟩,
        rpc1 := .error ⟨"RpcError: No such file or directory"⟩,
        rpc2 := .ok "d41d8cd98f00b204e9800998ecf8427e", scpResult := .ok () } =
      (.exited "File pushed OK" true false, putTrace) :=
  (C4_put_first_time
    { localOpen1 := .ok [], localOpen2 := .error ⟨"x"⟩,
      rpc1 := .error ⟨"RpcError: No such file or directory"⟩,
      rpc2 := .ok "d41d8cd98f00b204e9800998ecf8427e", scpResult := .ok () }
    [] "d41d8cd98f00b204e9800998ecf8427e" rfl (by decide) (by decide) rfl
    (by decide)).1

/-- C5: when the local and remote digests already match (a genuine digest,
not the sentinel), either direction skips: no transfer, `changed=false`,
msg="File already present, skipping the scp". -/
theorem C5_skip_when_digests_match (ptype : String) (env : Env) (d : String)
    (hty : ptype = "put" ∨ ptype = "get")
    (hl : local_md5 ptype env.localOpen1 = .ok d)
    (hr : remote_md5 ptype env.rpc1 = .ok d)
    (hd : d ≠ "no_file") :
    (mainRun ptype env).1 =
      .exited "File already present, skipping the scp" false false ∧
    ¬ transferAttempted (mainRun ptype env).2 := by
  rcases hty with rfl | rfl
  · rw [mainRun_put_skip env d d hl hr (by simp [hd])]
    exact ⟨rfl, by simp [transferAttempted]⟩
  · rw [mainRun_get_skip env d d hr hl (by simp [hd])]
    exact ⟨rfl, by simp [transferAttempted]⟩

/-- Witness for C5: a put of the empty file whose remote digest already
matches skips. -/
theorem C5_witness :
    (mainRun "put"
      { localOpen1 := .ok [], localOpen2 := .error ⟨"x"⟩,
        rpc1 := .ok "d41d8cd98f00b204e9800998ecf8427e",
        rpc2 := .error ⟨"y"⟩, scpResult := .ok () }).1 =
      .exited "File already present, skipping the scp" false false :=
  (C5_skip_when_digests_match "put"
    { localOpen1 := .ok [], localOpen2 := .error ⟨"x"⟩,
      rpc1 := .ok "d41d8cd98f00b204e9800998ecf8427e",
      rpc2 := .error ⟨"y"⟩, scpResult := .ok () }
    "d41d8cd98f00b204e9800998ecf8427e" (Or.inl rfl) (by decide) (by decide)
    (by decide)).1

/-- C6: every run that performs a transfer attempts exactly one copy
followed by exactly one re-verification of the destination checksum
(remote after put, local after get), and the success/failure verdict is a
function of the freshly recomputed value alone, never the pre-transfer
one. -/
theorem C6_one_transfer_one_reverification (env : Env) :
    (∀ lc rc, local_md5 "put" env.localOpen1 = .ok lc →
      remote_md5 "put" env.rpc1 = .ok rc → (rc = "no_file" ∨ rc ≠ lc) →
      env.scpResult = .ok () →
      (mainRun "put" env).2 = putTrace ∧
      (mainRun "put" env).2.count .scpPut = 1 ∧
      (mainRun "put" env).2.count .scpGet = 0 ∧
      ((mainRun "put" env).2.drop 5).count .remoteHash = 1 ∧
      (∀ rc2, remote_md5 "put" env.rpc2 = .ok rc2 →
        (mainRun "put" env).1 =
          (if rc2 = lc then .exited "File pushed OK" true false
           else .failedJson (transferFailMsg lc rc2)))) ∧
    (∀ lc rc, remote_md5 "get" env.rpc1 = .ok rc →
      local_md5 "get" env.localOpen1 = .ok lc → (lc = "no_file" ∨ rc ≠ lc) →
      env.scpResult = .ok () →
      (mainRun "get" env).2 = getTrace ∧
      (mainRun "get" env).2.count .scpGet = 1 ∧
      (mainRun "get" env).2.count .scpPut = 0 ∧
      ((mainRun "get" env).2.drop 5).count .localHash = 1 ∧
      (∀ lc2, local_md5 "get" env.localOpen2 = .ok lc2 →
        (mainRun "get" env).1 =
          (if rc = lc2 then .exited "File retrieved OK" true false
           else .failedJson (transferFailMsg lc2 rc)))) := by
  constructor
  · intro lc rc hl hr hcond hscp
    cases hr2 : remote_md5 "put" env.rpc2 with
    | error e =>
        rw [mainRun_put_rpc2_raise env lc rc e hl hr hcond hscp hr2]
        refine ⟨rfl, rfl, rfl, rfl, ?_⟩
        intro rc2 h
        simp at h
    | ok rc2 =>
        rw [mainRun_put_verify env lc rc rc2 hl hr hcond hscp hr2]
        refine ⟨rfl, rfl, rfl, rfl, ?_⟩
        intro rc2' h
        obtain rfl : rc2 = rc2' := Except.ok.inj h
        rfl
  · intro lc rc hr hl hcond hscp
    cases hl2 : local_md5 "get" env.localOpen2 with
    | error e =>
        rw [mainRun_get_local2_raise env lc rc e hr hl hcond hscp hl2]
        refine ⟨rfl, rfl, rfl, rfl, ?_⟩
        intro lc2 h
        simp at h
    | ok lc2 =>
        rw [mainRun_get_verify env lc rc lc2 hr hl hcond hscp hl2]
        refine ⟨rfl, rfl, rfl, rfl, ?_⟩
        intro lc2' h
        obtain rfl : lc2 = lc2' := Except.ok.inj h
        rfl

/-- Witness for C6: the first-time put of the empty file attempts exactly
one copy and one re-verification. -/
theorem C6_witness :
    (mainRun "put"
      { localOpen1 := .ok [], localOpen2 := .error ⟨"x"⟩,
        rpc1 := .error ⟨"RpcError: No such file or directory"⟩,
        rpc2 := .ok "d41d8cd98f00b204e9800998ecf8427e",
        scpResult := .ok () }).2 = putTrace :=
  (((C6_one_transfer_one_reverification
    { localOpen1 := .ok [], localOpen2 := .error ⟨"x"⟩,
      rpc1 := .error ⟨"RpcError: No such file or directory"⟩,
      rpc2 := .ok "d41d8cd98f00b204e9800998ecf8427e", scpResult := .ok () }).1)
    "d41d8cd98f00b204e9800998ecf8427e" "no_file"
    (by decide) (by decide) (Or.inl rfl) rfl).1

/-- C7: running the put sync twice with an unchanged local file and no
intervening remote change is idempotent: the first run is a verified
transfer (`changed=true`), the second skips (`changed=false`, no
transfer). -/
theorem C7_put_idempotent (env1 env2 : Env) (bytes : List Nat)
    (d1 rc : String)
    (h1l : env1.localOpen1 = .ok bytes)
    (hd1 : d1 = hashfile bytes [] 65536)
    (h1r : remote_md5 "put" env1.rpc1 = .ok rc)
    (hneed : rc = "no_file" ∨ rc ≠ d1)
    (h1scp : env1.scpResult = .ok ())
    (h1rpc2 : remote_md5 "put" env1.rpc2 = .ok d1)
    (h2l : env2.localOpen1 = .ok bytes)
    (h2r : remote_md5 "put" env2.rpc1 = .ok d1) :
    (mainRun "put" env1).1 = .exited "File pushed OK" true false ∧
    transferAttempted (mainRun "put" env1).2 ∧
    (mainRun "put" env2).1 =
      .exited "File already present, skipping the scp" false false ∧
    ¬ transferAttempted (mainRun "put" env2).2 := by
  have hl1 : local_md5 "put" env1.localOpen1 = .ok d1 := by
    rw [h1l, local_md5, hd1]
  have hl2 : local_md5 "put" env2.localOpen1 = .ok d1 := by
    rw [h2l, local_md5, hd1]
  have hd : d1 ≠ "no_file" := local_md5_put_digest env1.localOpen1 d1 hl1
  have hrun1 := mainRun_put_verify env1 d1 rc d1 hl1 h1r hneed h1scp h1rpc2
  rw [if_pos rfl] at hrun1
  have hrun2 := mainRun_put_skip env2 d1 d1 hl2 h2r (by simp [hd])
  refine ⟨by rw [hrun1], put_transfer_attempted env1 d1 rc hl1 h1r hneed,
    by rw [hrun2], ?_⟩
  rw [hrun2]
  simp [transferAttempted]

/-- Witness for C7: first-time put of the empty file, then a re-run
against the now-matching remote. -/
theorem C7_witness :
    (mainRun "put"
      { localOpen1 := .ok [], localOpen2 := .error ⟨"x"⟩,
        rpc1 := .error ⟨"RpcError: No such file or directory"⟩,
        rpc2 := .ok "d41d8cd98f00b204e9800998ecf8427e",
        scpResult := .ok () }).1 = .exited "File pushed OK" true false ∧
    (mainRun "put"
      { localOpen1 := .ok [], localOpen2 := .error ⟨"x"⟩,
        rpc1 := .ok "d41d8cd98f00b204e9800998ecf8427e",
        rpc2 := .error ⟨"z"⟩, scpResult := .ok () }).1 =
      .exited "File already present, skipping the scp" false false := by
  have h := C7_put_idempotent
    { localOpen1 := .ok [], localOpen2 := .error ⟨"x"⟩,
      rpc1 := .error ⟨"RpcError: No such file or directory"⟩,
      rpc2 := .ok "d41d8cd98f00b204e9800998ecf8427e", scpResult := .ok () }
    { localOpen1 := .ok [], localOpen2 := .error ⟨"x"⟩,
      rpc1 := .ok "d41d8cd98f00b204e9800998ecf8427e",
      rpc2 := .error ⟨"z"⟩, scpResult := .ok () }
    [] "d41d8cd98f00b204e9800998ecf8427e" "no_file"
    rfl (by decide) (by decide) (Or.inl rfl) rfl (by decide) rfl (by decide)
  exact ⟨h.1, h.2.2.1⟩

/-- C9: for every run that performs a transfer, the SCP session is
acquired immediately before the copy and released immediately after it on
every exit path — in particular, when the copy raises, the session is
still released and the exception then propagates. -/
theorem C9_scp_session_scoped (env : Env) :
    (∀ lc rc, local_md5 "put" env.localOpen1 = .ok lc →
      remote_md5 "put" env.rpc1 = .ok rc → (rc = "no_file" ∨ rc ≠ lc) →
      (∃ rest, (mainRun "put" env).2 =
        [.localHash, .remoteHash, .scpOpen, .scpPut, .scpClose] ++ rest) ∧
      (∀ e, env.scpResult = .error e →
        mainRun "put" env =
          (.raised e,
           [.localHash, .remoteHash, .scpOpen, .scpPut, .scpClose]))) ∧
    (∀ lc rc, remote_md5 "get" env.rpc1 = .ok rc →
      local_md5 "get" env.localOpen1 = .ok lc → (lc = "no_file" ∨ rc ≠ lc) →
      (∃ rest, (mainRun "get" env).2 =
        [.remoteHash, .localHash, .scpOpen, .scpGet, .scpClose] ++ rest) ∧
      (∀ e, env.scpResult = .error e →
        mainRun "get" env =
          (.raised e,
           [.remoteHash, .localHash, .scpOpen, .scpGet, .scpClose]))) := by
  constructor
  · intro lc rc hl hr hcond
    constructor
    · cases hscp : env.scpResult with
      | error e =>
          rw [mainRun_put_scp_raise env lc rc e hl hr hcond hscp]
          exact ⟨[], rfl⟩
      | ok u =>
          cases u
          cases hr2 : remote_md5 "put" env.rpc2 with
          | error e =>
              rw [mainRun_put_rpc2_raise env lc rc e hl hr hcond hscp hr2]
              exact ⟨[.remoteHash], rfl⟩
          | ok rc2 =>
              rw [mainRun_put_verify env lc rc rc2 hl hr hcond hscp hr2]
              exact ⟨[.remoteHash], rfl⟩
    · intro e hscp
      exact mainRun_put_scp_raise env lc rc e hl hr hcond hscp
  · intro lc rc hr hl hcond
    constructor
    · cases hscp : env.scpResult with
      | error e =>
          rw [mainRun_get_scp_raise env lc rc e hr hl hcond hscp]
          exact ⟨[], rfl⟩
      | ok u =>
          cases u
          cases hl2 : local_md5 "get" env.localOpen2 with
          | error e =>
              rw [mainRun_get_local2_raise env lc rc e hr hl hcond hscp hl2]
              exact ⟨[.localHash], rfl⟩
          | ok lc2 =>
              rw [mainRun_get_verify env lc rc lc2 hr hl hcond hscp hl2]
              exact ⟨[.localHash], rfl⟩
    · intro e hscp
      exact mainRun_get_scp_raise env lc rc e hr hl hcond hscp

/-- Witness for C9: a put whose copy raises still closes the session and
propagates the exception. -/
theorem C9_witness :
    mainRun "put"
      { localOpen1 := .ok [], localOpen2 := .error ⟨"x"⟩,
        rpc1 := .error ⟨"RpcError: No such file or directory"⟩,
        rpc2 := .error ⟨"y"⟩, scpResult := .error ⟨"SCPError: broken pipe"⟩ } =
      (.raised ⟨"SCPError: broken pipe"⟩,
       [.localHash, .remoteHash, .scpOpen, .scpPut, .scpClose]) :=
  (((C9_scp_session_scoped
    { localOpen1 := .ok [], localOpen2 := .error ⟨"x"⟩,
      rpc1 := .error ⟨"RpcError: No such file or directory"⟩,
      rpc2 := .error ⟨"y"⟩, scpResult := .error ⟨"SCPError: broken pipe"⟩ }).1)
    "d41d8cd98f00b204e9800998ecf8427e" "no_file"
    (by decide) (by decide) (Or.inl rfl)).2 ⟨"SCPError: broken pipe"⟩ rfl

/-- C10: at the transfer-decision point the source-side checksum is never
the `"no_file"` sentinel: `local_md5` (put) and `remote_md5` (get)
re-raise on a missing file instead of returning the sentinel, a put's
local checksum is always a genuine 32-character digest, a get's remote
checksum is the device's digest, and an absent destination always leads
to a transfer, never to a wrongful skip. -/
theorem C10_source_checksum_never_sentinel (env : Env) :
    (∀ e, local_md5 "put" (.error e) = .error e) ∧
    (∀ e, remote_md5 "get" (.error e) = .error e) ∧
    (∀ lc, local_md5 "put" env.localOpen1 = .ok lc → lc ≠ "no_file") ∧
    (∀ t bs, env.rpc1 = .ok t → pyStrip t = md5Hex bs →
      remote_md5 "get" env.rpc1 = .ok (md5Hex bs) ∧ md5Hex bs ≠ "no_file") ∧
    (∀ lc, local_md5 "put" env.localOpen1 = .ok lc →
      remote_md5 "put" env.rpc1 = .ok "no_file" →
      transferAttempted (mainRun "put" env).2) ∧
    (∀ rc, remote_md5 "get" env.rpc1 = .ok rc →
      local_md5 "get" env.localOpen1 = .ok "no_file" →
      transferAttempted (mainRun "get" env).2) := by
  refine ⟨fun e => by simp [local_md5], fun e => by simp [remote_md5],
    fun lc h => local_md5_put_digest env.localOpen1 lc h, ?_, ?_, ?_⟩
  · intro t bs h1 h2
    rw [h1]
    exact ⟨by simp [remote_md5, h2], md5Hex_ne_no_file bs⟩
  · intro lc hl hr
    exact put_transfer_attempted env lc "no_file" hl hr (Or.inl rfl)
  · intro rc hr hl
    exact get_transfer_attempted env "no_file" rc hr hl (Or.inl rfl)

/-- Witness for C10: the put-side local checksum of the empty file is a
digest, not the sentinel. -/
theorem C10_witness :
    ("d41d8cd98f00b204e9800998ecf8427e" : String) ≠ "no_file" :=
  (C10_source_checksum_never_sentinel
    { localOpen1 := .ok [], localOpen2 := .error ⟨"x"⟩,
      rpc1 := .ok "", rpc2 := .ok "", scpResult := .ok () }).2.2.1
    "d41d8cd98f00b204e9800998ecf8427e" (by decide)

/-- C8: the local checksum helper streams the file's bytes through the
MD5 accumulator in fixed 65536-byte blocks and returns the lowercase hex
digest, which equals the MD5 digest of the file's entire contents —
including for a zero-byte file. -/
theorem C8_hashfile_streams_whole_file (contents : List Nat) :
    hashfile contents [] 65536 = md5Hex contents ∧
    hashfile [] [] 65536 = md5Hex [] ∧
    ∀ c ∈ (hashfile contents [] 65536).data, c ∈ "0123456789abcdef".data := by
  have h1 : hashfile contents [] 65536 = md5Hex contents := by
    rw [hashfile_spec contents [] 65536 (by omega), List.nil_append]
  refine ⟨h1, by rw [hashfile_spec [] [] 65536 (by omega), List.nil_append], ?_⟩
  rw [h1]
  exact digestHex_chars (md5Digest contents)

/-- Witness for C8 at a one-byte file: the streamed digest matches the
whole-contents digest and its first character is a lowercase hex char. -/
theorem C8_witness :
    hashfile [0] [] 65536 = md5Hex [0] ∧ '9' ∈ "0123456789abcdef".data :=
  ⟨(C8_hashfile_streams_whole_file [0]).1,
   (C8_hashfile_streams_whole_file [0]).2.2 '9' (by decide)⟩

end JunosFile
